import Mathlib

/-!
# Verification of `onmt/ModelConstructor.py` (HAN-NMT / DL_NMT_RL)

Shallow embedding of the model-construction module
`src/full_source/onmt/ModelConstructor.py`.  Python dictionaries
(`state_dict`s, `checkpoint['model']`, ...) are modelled as ordered
association lists with unique keys; PyTorch parameters are modelled
symbolically (their numeric contents are opaque tags, random
initialisation is recorded symbolically); module constructor calls are
modelled as inductive values recording the constructor and the arguments
the source passes.
-/

namespace ModelConstructor

/-! ## Python dictionaries (state dicts)

A Python `dict` mapping state-dict keys to tensors, as an ordered
association list.  `sdInsert` mirrors `d[k] = v` (replace in place, else
append), `sdUpdate` mirrors `d.update(d2)`, `sdLookup` mirrors `d[k]`
(as an `Option`), `sdContainsKey` mirrors `k in d`. -/

abbrev StateDict (V : Type) := List (String × V)

def sdLookup {V : Type} (d : StateDict V) (k : String) : Option V :=
  (d.find? (fun p => p.1 == k)).map (fun p => p.2)

def sdContainsKey {V : Type} (d : StateDict V) (k : String) : Bool :=
  d.any (fun p => p.1 == k)

def sdInsert {V : Type} : StateDict V → String → V → StateDict V
  | [], k, v => [(k, v)]
  | p :: d, k, v => if p.1 == k then (k, v) :: d else p :: sdInsert d k v

def sdUpdate {V : Type} (d d2 : StateDict V) : StateDict V :=
  d2.foldl (fun a p => sdInsert a p.1 p.2) d

/-- Occurrence of `sub` as a contiguous sublist of `s`. -/
def subOccurs (sub : List Char) : List Char → Bool
  | [] => sub.isEmpty
  | c :: rest => sub.isPrefixOf (c :: rest) || subOccurs sub rest

/-- Python `sub in s` on strings: substring containment. -/
def strContains (s sub : String) : Bool :=
  subOccurs sub.data s.data

/-- Replace every non-overlapping occurrence of `pat` (non-empty) by
`rep`, scanning left to right; `fuel` bounds the recursion and is
always instantiated with the length of the scanned list, which
suffices because each step consumes at least one character. -/
def pyReplaceFuel (pat rep : List Char) : Nat → List Char → List Char
  | _, [] => []
  | 0, l => l
  | fuel + 1, c :: rest =>
      if pat.isPrefixOf (c :: rest) then
        rep ++ pyReplaceFuel pat rep fuel (rest.drop (pat.length - 1))
      else
        c :: pyReplaceFuel pat rep fuel rest

/-- Python `s.replace(pat, rep)` for a non-empty `pat`: every
non-overlapping occurrence is replaced, scanning left to right. -/
def pyReplace (s pat rep : String) : String :=
  ⟨pyReplaceFuel pat.data rep.data s.data.length s.data⟩

/-- `torch.nn.Module.load_state_dict(d, strict=False)`: every parameter
whose name occurs in `d` receives the value from `d`; parameters missing
from `d` are untouched and unexpected keys of `d` are ignored. -/
def sdLoadNonStrict {V : Type} (cur d : StateDict V) : StateDict V :=
  cur.map (fun p => (p.1, (sdLookup d p.1).getD p.2))

/-! ### Lemmas about the dictionary model -/

theorem sdLookup_nil {V : Type} (k : String) : sdLookup ([] : StateDict V) k = none := rfl

theorem sdLookup_cons {V : Type} (p : String × V) (d : StateDict V) (k : String) :
    sdLookup (p :: d) k = if p.1 == k then some p.2 else sdLookup d k := by
  simp only [sdLookup, List.find?]
  cases h : (p.1 == k) <;> simp [h]

theorem sdLookup_eq_none_of_not_mem {V : Type} {d : StateDict V} {q : String}
    (h : q ∉ d.map Prod.fst) : sdLookup d q = none := by
  induction d with
  | nil => rfl
  | cons p t ih =>
      simp only [List.map_cons, List.mem_cons] at h
      push_neg at h
      have hb : (p.1 == q) = false := by
        rw [beq_eq_false_iff_ne]
        exact fun he => h.1 he.symm
      rw [sdLookup_cons, hb]
      simpa using ih h.2

theorem sdLookup_sdInsert {V : Type} (d : StateDict V) (k : String) (v : V) (q : String) :
    sdLookup (sdInsert d k v) q = if q = k then some v else sdLookup d q := by
  induction d with
  | nil =>
      by_cases h : q = k
      · subst h; simp [sdInsert, sdLookup_cons]
      · have hk : (k == q) = false := by
          rw [beq_eq_false_iff_ne]
          exact fun he => h he.symm
        simp [sdInsert, sdLookup_cons, hk, h]
  | cons p d ih =>
      by_cases hp : p.1 = k
      · have hb : (p.1 == k) = true := by simp [hp]
        simp only [sdInsert, hb, if_pos]
        by_cases h : q = k
        · subst h; simp [sdLookup_cons]
        · have h1 : (k == q) = false := by
            rw [beq_eq_false_iff_ne]
            exact fun he => h he.symm
          have h2 : (p.1 == q) = false := by
            rw [beq_eq_false_iff_ne, hp]
            exact fun he => h he.symm
          simp [sdLookup_cons, h1, h2, h]
      · have hb : (p.1 == k) = false := by
          rw [beq_eq_false_iff_ne]
          exact hp
        simp only [sdInsert, hb, Bool.false_eq_true, if_false]
        by_cases hq : p.1 = q
        · have hqb : (p.1 == q) = true := by simp [hq]
          have hqk : ¬ q = k := fun he => hp (hq.symm ▸ he)
          simp [sdLookup_cons, hqb, hqk]
        · have hqb : (p.1 == q) = false := by
            rw [beq_eq_false_iff_ne]
            exact hq
          simp [sdLookup_cons, hqb, ih]

theorem sdLookup_sdUpdate_not_mem {V : Type} (d d2 : StateDict V) (q : String)
    (h : sdContainsKey d2 q = false) :
    sdLookup (sdUpdate d d2) q = sdLookup d q := by
  induction d2 generalizing d with
  | nil => rfl
  | cons p t ih =>
      simp only [sdContainsKey, List.any_cons, Bool.or_eq_false_iff] at h
      have h1 : (p.1 == q) = false := h.1
      have h2 : sdContainsKey t q = false := h.2
      simp only [sdUpdate, List.foldl_cons]
      have := ih (sdInsert d p.1 p.2) h2
      simp only [sdUpdate] at this
      rw [this, sdLookup_sdInsert]
      have : ¬ (q = p.1) := by
        intro he
        rw [he] at h1
        simp at h1
      simp [this]

theorem sdLookup_sdUpdate_nodup {V : Type} (d d2 : StateDict V) (q : String)
    (h : (d2.map Prod.fst).Nodup) :
    sdLookup (sdUpdate d d2) q = (sdLookup d2 q).or (sdLookup d q) := by
  induction d2 generalizing d with
  | nil => simp [sdUpdate, sdLookup_nil]
  | cons p t ih =>
      simp only [List.map_cons, List.nodup_cons] at h
      simp only [sdUpdate, List.foldl_cons]
      have step := ih (sdInsert d p.1 p.2) h.2
      simp only [sdUpdate] at step
      rw [step, sdLookup_cons, sdLookup_sdInsert]
      by_cases hq : q = p.1
      · subst hq
        have hqt : sdLookup t p.1 = none :=
          sdLookup_eq_none_of_not_mem h.1
        simp [hqt]
      · have hbq : (p.1 == q) = false := by
          rw [beq_eq_false_iff_ne]
          exact fun he => hq he.symm
        simp [hbq, hq]

theorem sdLookup_sdLoadNonStrict {V : Type} (cur d : StateDict V) (q : String) :
    sdLookup (sdLoadNonStrict cur d) q =
      (sdLookup cur q).map (fun v => (sdLookup d q).getD v) := by
  induction cur with
  | nil => rfl
  | cons p t ih =>
      simp only [sdLoadNonStrict, List.map_cons]
      rw [sdLookup_cons, sdLookup_cons]
      by_cases hp : p.1 = q
      · have hb : (p.1 == q) = true := by simp [hp]
        simp [hb, hp]
      · have hb : (p.1 == q) = false := by
          rw [beq_eq_false_iff_ne]
          exact hp
        simp only [hb, Bool.false_eq_true, if_false]
        simpa [sdLoadNonStrict] using ih

theorem sdLookup_filter_nodup {V : Type} (d : StateDict V) (f : String × V → Bool)
    (h : (d.map Prod.fst).Nodup) (q : String) :
    sdLookup (d.filter f) q =
      (sdLookup d q).bind (fun v => if f (q, v) then some v else none) := by
  induction d with
  | nil => rfl
  | cons p t ih =>
      simp only [List.map_cons, List.nodup_cons] at h
      by_cases hq : p.1 = q
      · have hb : (p.1 == q) = true := by simp [hq]
        have hqt : sdLookup t q = none :=
          sdLookup_eq_none_of_not_mem (by rw [← hq]; exact h.1)
        have hpair : (q, p.2) = p := by rw [← hq]
        by_cases hf : f p = true
        · simp [List.filter_cons, hf, sdLookup_cons, hb, hpair]
        · have hf' : f p = false := by simp at hf; simp [hf]
          simp [List.filter_cons, hf', sdLookup_cons, hb, hpair, ih h.2, hqt]
      · have hb : (p.1 == q) = false := by
          rw [beq_eq_false_iff_ne]
          exact hq
        by_cases hf : f p = true
        · simp [List.filter_cons, hf, sdLookup_cons, hb, ih h.2]
        · have hf' : f p = false := by simp at hf; simp [hf]
          simp [List.filter_cons, hf', sdLookup_cons, hb, ih h.2]

/-! ## Data model: vocabularies, options, symbolic tensors -/

/-- A torchtext vocabulary: `itos` lists the words; `stoi` is a
defaultdict sending a word to its index and any unknown word to `0`
(the UNK index). -/
structure Vocab where
  itos : List String
deriving DecidableEq, Repr

def Vocab.stoi (v : Vocab) (s : String) : Nat :=
  (v.itos.findIdx? (fun w => w == s)).getD 0

/-- Special-token constants from `onmt.io` (that module is not part of
the sources shown; the values are the upstream OpenNMT-py constants).
Only their identities matter here, never the literal strings. -/
def PAD_WORD : String := "<blank>"

def UNK : Nat := 0

def BOS_WORD : String := "<s>"

def EOS_WORD : String := "</s>"

/-- The `fields` argument of `make_base_model`: `Field` objects carrying
the source and target vocabularies (`fields["src"].vocab`,
`fields["tgt"].vocab`).  Feature vocabularies are not modelled: no claim
concerns them. -/
structure Fields where
  src : Vocab
  tgt : Vocab
deriving DecidableEq, Repr

/-- The slice of `model_opt` read by this module.  Floating-point
options are modelled as rationals. `RISK_ratio` and the beam-search
options of the `NMTModel` constructor call (lines 220-229) are not
modelled: no claim concerns them. -/
structure ModelOpt where
  model_type : String
  encoder_type : String
  decoder_type : String
  rnn_type : String
  brnn : Bool
  enc_layers : Nat
  dec_layers : Nat
  rnn_size : Nat
  cnn_kernel_width : Nat
  dropout : Rat
  bridge : Bool
  global_attention : String
  coverage_attn : Bool
  context_gate : Option String
  copy_attn : Bool
  reuse_copy_attn : Bool
  input_feed : Bool
  src_word_vec_size : Nat
  tgt_word_vec_size : Nat
  share_embeddings : Bool
  share_decoder_embeddings : Bool
  context_type : Option String
  context_size : Nat
  param_init : Rat
  param_init_glorot : Bool
  sample_rate : Nat
  window_size : Nat
deriving DecidableEq, Repr

/-- Symbolic contents of a tensor.  `stored n` is an opaque concrete
value (a freshly constructed parameter or a value saved in a
checkpoint); `uniformRand b` records an in-place
`tensor.uniform_(-b, b)`; `xavierRand` records `xavier_uniform(tensor)`.
Randomness itself is not modelled, only which initialisation was
performed last. -/
inductive ParamVal where
  | stored (tag : Nat)
  | uniformRand (bound : Rat)
  | xavierRand
deriving DecidableEq, Repr

/-- A `torch.nn.Parameter`.  `requires_grad` is the real attribute that
controls autograd; it is `true` on construction.  `require_grad` models
the attribute of that (misspelled) name: Python object attribute
assignment `param.require_grad = b` creates a fresh attribute and
leaves `requires_grad` untouched. -/
structure PyParam where
  data : ParamVal
  dim : Nat
  requires_grad : Bool := true
  require_grad : Option Bool := none
deriving DecidableEq, Repr

/-- Python `param.require_grad = b` (the spelling used at lines
265, 267 and 270 of the source): sets only the stray attribute. -/
def pyAssignRequireGrad (p : PyParam) (b : Bool) : PyParam :=
  { p with require_grad := some b }

/-- The named parameters of a module, keyed by their state-dict names
(`module.state_dict()` keys coincide with `named_parameters()` keys for
the modules built here). -/
abbrev Params := List (String × PyParam)

/-- Result of `module.state_dict()`: the tensor contents keyed by
parameter name. -/
def paramsStateDict (ps : Params) : StateDict ParamVal :=
  ps.map (fun q => (q.1, q.2.data))

/-- The parameters of `model.doc_context` are exactly the model
parameters whose state-dict name lives under the `doc_context`
submodule. -/
def isDocContextParam (name : String) : Bool :=
  List.isPrefixOf "doc_context.".data name.data

/-- Effect of `model.load_state_dict(d, strict=False)` at the parameter
level: each named parameter takes the tensor stored in `d` under its
name, if any. -/
def loadParams (ps : Params) (d : StateDict ParamVal) : Params :=
  ps.map (fun q => (q.1, { q.2 with data := (sdLookup d q.1).getD q.2.data }))

/-! ## Module constructors

Constructed modules are recorded as inductive values carrying exactly
the arguments the source passes to the corresponding constructor.
Weight tensors that claims compare for object identity (the word
look-up tables and the generator linear weight) are modelled as
reference identifiers: two weights are the identical Python object
exactly when their references are equal. -/

/-- An `Embeddings` instance (lines 39-71).  Feature-embedding options
and the position-encoding/dropout arguments are not modelled: no claim
concerns them.  `wordLutWeight` is the reference of
`embeddings.word_lut.weight`. -/
structure Embeddings where
  wordVecSize : Nat
  wordPaddingIdx : Nat
  wordVocabSize : Nat
  wordLutWeight : Nat
deriving DecidableEq, Repr

/-- `make_embeddings` (lines 39-71): embedding dimension comes from the
source side for encoders and the target side for decoders; the padding
index is `word_dict.stoi[onmt.io.PAD_WORD]`; the vocabulary size is
`len(word_dict)`.  `weightRef` is the identity of the fresh
`word_lut.weight` tensor it allocates. -/
def make_embeddings (opt : ModelOpt) (word_dict : Vocab) (for_encoder : Bool)
    (weightRef : Nat) : Embeddings :=
  { wordVecSize := if for_encoder then opt.src_word_vec_size else opt.tgt_word_vec_size
    wordPaddingIdx := word_dict.stoi PAD_WORD
    wordVocabSize := word_dict.itos.length
    wordLutWeight := weightRef }

/-- The encoders the module can construct, with the constructor
arguments passed at lines 81-94 and 188-199. -/
inductive Encoder where
  | TransformerEncoder (enc_layers rnn_size : Nat) (dropout : Rat) (embeddings : Embeddings)
  | CNNEncoder (enc_layers rnn_size cnn_kernel_width : Nat) (dropout : Rat) (embeddings : Embeddings)
  | MeanEncoder (enc_layers : Nat) (embeddings : Embeddings)
  | RNNEncoder (rnn_type : String) (brnn : Bool) (enc_layers rnn_size : Nat) (dropout : Rat)
      (embeddings : Embeddings) (bridge : Bool)
  | ImageEncoder (enc_layers : Nat) (brnn : Bool) (rnn_size : Nat) (dropout : Rat)
  | AudioEncoder (enc_layers : Nat) (brnn : Bool) (rnn_size : Nat) (dropout : Rat)
      (sample_rate window_size : Nat)
deriving DecidableEq, Repr

/-- `make_encoder` (lines 74-94): dispatch on `opt.encoder_type`; every
type other than `"transformer"`, `"cnn"`, `"mean"` builds an
`RNNEncoder` (the `"rnn"` or `"brnn"` case). -/
def make_encoder (opt : ModelOpt) (embeddings : Embeddings) : Encoder :=
  if opt.encoder_type == "transformer" then
    .TransformerEncoder opt.enc_layers opt.rnn_size opt.dropout embeddings
  else if opt.encoder_type == "cnn" then
    .CNNEncoder opt.enc_layers opt.rnn_size opt.cnn_kernel_width opt.dropout embeddings
  else if opt.encoder_type == "mean" then
    .MeanEncoder opt.enc_layers embeddings
  else
    .RNNEncoder opt.rnn_type opt.brnn opt.enc_layers opt.rnn_size opt.dropout embeddings
      opt.bridge

/-- The decoders the module can construct, with the constructor
arguments passed at lines 104-132. -/
inductive Decoder where
  | TransformerDecoder (dec_layers rnn_size : Nat) (global_attention : String)
      (copy_attn : Bool) (dropout : Rat) (embeddings : Embeddings)
  | CNNDecoder (dec_layers rnn_size : Nat) (global_attention : String) (copy_attn : Bool)
      (cnn_kernel_width : Nat) (dropout : Rat) (embeddings : Embeddings)
  | InputFeedRNNDecoder (rnn_type : String) (brnn : Bool) (dec_layers rnn_size : Nat)
      (global_attention : String) (coverage_attn : Bool) (context_gate : Option String)
      (copy_attn : Bool) (dropout : Rat) (embeddings : Embeddings) (reuse_copy_attn : Bool)
  | StdRNNDecoder (rnn_type : String) (brnn : Bool) (dec_layers rnn_size : Nat)
      (global_attention : String) (coverage_attn : Bool) (context_gate : Option String)
      (copy_attn : Bool) (dropout : Rat) (embeddings : Embeddings) (reuse_copy_attn : Bool)
deriving DecidableEq, Repr

/-- The `embeddings` attribute every decoder stores. -/
def Decoder.embeddings : Decoder → Embeddings
  | .TransformerDecoder _ _ _ _ _ e => e
  | .CNNDecoder _ _ _ _ _ _ e => e
  | .InputFeedRNNDecoder _ _ _ _ _ _ _ _ _ e _ => e
  | .StdRNNDecoder _ _ _ _ _ _ _ _ _ e _ => e

/-- `make_decoder` (lines 97-132): `"transformer"` and `"cnn"` take
precedence; otherwise `opt.input_feed` selects `InputFeedRNNDecoder`
over `StdRNNDecoder`. -/
def make_decoder (opt : ModelOpt) (embeddings : Embeddings) : Decoder :=
  if opt.decoder_type == "transformer" then
    .TransformerDecoder opt.dec_layers opt.rnn_size opt.global_attention opt.copy_attn
      opt.dropout embeddings
  else if opt.decoder_type == "cnn" then
    .CNNDecoder opt.dec_layers opt.rnn_size opt.global_attention opt.copy_attn
      opt.cnn_kernel_width opt.dropout embeddings
  else if opt.input_feed then
    .InputFeedRNNDecoder opt.rnn_type opt.brnn opt.dec_layers opt.rnn_size
      opt.global_attention opt.coverage_attn opt.context_gate opt.copy_attn opt.dropout
      embeddings opt.reuse_copy_attn
  else
    .StdRNNDecoder opt.rnn_type opt.brnn opt.dec_layers opt.rnn_size
      opt.global_attention opt.coverage_attn opt.context_gate opt.copy_attn opt.dropout
      embeddings opt.reuse_copy_attn

/-- A `HierarchicalContext` module with the constructor arguments passed
at lines 144-147. -/
structure HierarchicalContext where
  rnn_size : Nat
  dropout : Rat
  context_type : String
  context_size : Nat
  padding_idx : Nat
  tok_idx : List Nat
deriving DecidableEq, Repr

/-- The value bound to `model.doc_context`: a single module or an
`nn.ModuleList`. -/
inductive ContextObj where
  | single (h : HierarchicalContext)
  | moduleList (hs : List HierarchicalContext)
deriving DecidableEq, Repr

/-- `make_context` (lines 134-147).  `padding_idx` is
`tgt_dict.stoi[PAD_WORD]`; `tok` is
`[tgt_dict.stoi[PAD_WORD], onmt.io.UNK, tgt_dict.stoi[BOS_WORD],
tgt_dict.stoi[EOS_WORD]]` (note the second entry is the constant
`onmt.io.UNK`, not a `stoi` lookup).  `None` context type yields no
module; `"HAN_join"` yields a `ModuleList` of two identically
constructed modules; anything else a single module. -/
def make_context (opt : ModelOpt) (tgt_dict : Vocab) : Option ContextObj :=
  let padding_idx := tgt_dict.stoi PAD_WORD
  let tok := [tgt_dict.stoi PAD_WORD, UNK, tgt_dict.stoi BOS_WORD, tgt_dict.stoi EOS_WORD]
  match opt.context_type with
  | none => none
  | some ct =>
      if ct == "HAN_join" then
        some (.moduleList
          [{ rnn_size := opt.rnn_size, dropout := opt.dropout, context_type := ct
             context_size := opt.context_size, padding_idx := padding_idx, tok_idx := tok },
           { rnn_size := opt.rnn_size, dropout := opt.dropout, context_type := ct
             context_size := opt.context_size, padding_idx := padding_idx, tok_idx := tok }])
      else
        some (.single
          { rnn_size := opt.rnn_size, dropout := opt.dropout, context_type := ct
            context_size := opt.context_size, padding_idx := padding_idx, tok_idx := tok })

/-- A `nn.Linear` layer; `weight` is the reference of its weight
tensor. -/
structure LinearLayer where
  inFeatures : Nat
  outFeatures : Nat
  weight : Nat
deriving DecidableEq, Repr

/-- The generator (lines 232-241): either
`nn.Sequential(nn.Linear(rnn_size, len(tgt_vocab)), nn.LogSoftmax(dim=1))`
or a `CopyGenerator(rnn_size, tgt_vocab)`. -/
inductive Generator where
  | Sequential (linear : LinearLayer)
  | CopyGenerator (rnn_size : Nat) (tgt_vocab : Vocab)
deriving DecidableEq, Repr

/-! ## `make_base_model`: model skeleton construction (lines 167-241) -/

/-- The Python exceptions the modelled control flow can raise. -/
inductive PyErr where
  | assertionError (msg : String)
  | unboundLocalError (name : String)
  | typeError (msg : String)
deriving DecidableEq, Repr

/-- Message of the `AssertionError` raised at lines 211-212 (backquotes
of the original message elided). -/
def shareVocabMsg : String :=
  "The -share_vocab should be set during preprocess if you use share_embeddings!"

/-- Reference identity of the fresh `word_lut.weight` allocated for the
source embeddings. -/
def srcWeightRef : Nat := 0

/-- Reference identity of the fresh `word_lut.weight` allocated for the
target embeddings. -/
def tgtWeightRef : Nat := 1

/-- Reference identity of the fresh weight of the generator
`nn.Linear`. -/
def genWeightRef : Nat := 2

/-- Generator construction (lines 232-241).  Without `copy_attn` the
generator is `Linear(rnn_size, len(tgt_vocab))` + `LogSoftmax`, and
`share_decoder_embeddings` rebinds its weight to
`decoder.embeddings.word_lut.weight`; with `copy_attn` it is a
`CopyGenerator` and the sharing flag is never consulted. -/
def makeGenerator (opt : ModelOpt) (decoder : Decoder) (tgt_vocab : Vocab) : Generator :=
  if !opt.copy_attn then
    let lin : LinearLayer :=
      { inFeatures := opt.rnn_size, outFeatures := tgt_vocab.itos.length
        weight := genWeightRef }
    if opt.share_decoder_embeddings then
      .Sequential { lin with weight := decoder.embeddings.wordLutWeight }
    else
      .Sequential lin
  else
    .CopyGenerator opt.rnn_size tgt_vocab

/-- The model skeleton `make_base_model` assembles.  The beam-search
configuration attached when `RISK_ratio > 0` (lines 220-227) is not
modelled: no claim concerns it. -/
structure BaseModel where
  encoder : Encoder
  decoder : Decoder
  doc_context : Option ContextObj
  context_type : Option String
  tgt_embeddings : Embeddings
  generator : Generator
  model_type : String
deriving DecidableEq, Repr

/-- `make_base_model` (lines 167-241), up to and including generator
construction.  The assert at lines 178-179 rejects unsupported model
types; `src_dict`/`src_embeddings` are local variables only assigned in
the `"text"` branch, so the `share_embeddings` block (lines 208-214)
raises `UnboundLocalError` when they were never assigned, and raises
`AssertionError` when the vocabularies differ; otherwise it rebinds
`tgt_embeddings.word_lut.weight` to the source word-lookup weight
before `make_decoder` is called. -/
def make_base_model (opt : ModelOpt) (flds : Fields) : Except PyErr BaseModel :=
  if !(opt.model_type == "text" || opt.model_type == "img" || opt.model_type == "audio") then
    .error (.assertionError ("Unsupported model type " ++ opt.model_type))
  else
    let srcInfo : Option (Vocab × Embeddings × Encoder) :=
      if opt.model_type == "text" then
        let src_dict := flds.src
        let src_embeddings := make_embeddings opt src_dict true srcWeightRef
        some (src_dict, src_embeddings, make_encoder opt src_embeddings)
      else none
    let encoder : Encoder :=
      match srcInfo with
      | some info => info.2.2
      | none =>
          if opt.model_type == "img" then
            .ImageEncoder opt.enc_layers opt.brnn opt.rnn_size opt.dropout
          else
            .AudioEncoder opt.enc_layers opt.brnn opt.rnn_size opt.dropout
              opt.sample_rate opt.window_size
    let tgt_dict := flds.tgt
    let tgt_embeddings := make_embeddings opt tgt_dict false tgtWeightRef
    let sharedE : Except PyErr Embeddings :=
      if opt.share_embeddings then
        match srcInfo with
        | none => .error (.unboundLocalError "src_dict")
        | some info =>
            if info.1 ≠ tgt_dict then
              .error (.assertionError shareVocabMsg)
            else
              .ok { tgt_embeddings with wordLutWeight := info.2.1.wordLutWeight }
      else .ok tgt_embeddings
    sharedE.bind (fun te =>
      let decoder := make_decoder opt te
      let context := make_context opt tgt_dict
      let generator := makeGenerator opt decoder tgt_dict
      .ok { encoder := encoder, decoder := decoder, doc_context := context
            context_type := opt.context_type, tgt_embeddings := te
            generator := generator, model_type := opt.model_type })

/-! ## Checkpoint loading and parameter initialization (lines 243-296) -/

/-- Key remapping of line 254: replace every occurrence of
`doc_context` in the key by `doc_context.0` (Python `str.replace`
replaces all occurrences). -/
def remapDocContext (k : String) : String :=
  if strContains k "doc_context" then pyReplace k "doc_context" "doc_context.0" else k

/-- Lines 250-255 (`'join' in context_type`): keep the checkpoint
entries whose key occurs in the model state dict, remapping
`doc_context` keys.  Note the membership test happens before the
remapping. -/
def pretrainedDictJoin {V : Type} (ckptModel modelDict : StateDict V) : StateDict V :=
  (ckptModel.filter (fun p => sdContainsKey modelDict p.1)).map
    (fun p => (remapDocContext p.1, p.2))

/-- Line 257 (no `join`): keep the checkpoint entries whose key occurs
in the model state dict and does not contain `doc_context`. -/
def pretrainedDictNoJoin {V : Type} (ckptModel modelDict : StateDict V) : StateDict V :=
  ckptModel.filter
    (fun p => sdContainsKey modelDict p.1 && !(strContains p.1 "doc_context"))

/-- Lines 248-258 for `train_part == "context"`: the dictionary passed
to `model.load_state_dict` is the model state dict updated with the
selected pretrained entries. -/
def contextModelDict {V : Type} (ckptModel modelState : StateDict V) (ct : String) :
    StateDict V :=
  if strContains ct "join" then
    sdUpdate modelState (pretrainedDictJoin ckptModel modelState)
  else
    sdUpdate modelState (pretrainedDictNoJoin ckptModel modelState)

/-- The two state dicts of a saved checkpoint that this code reads:
`checkpoint['model']` and `checkpoint['generator']`. -/
structure Checkpoint where
  model : StateDict ParamVal
  generator : StateDict ParamVal
deriving DecidableEq, Repr

/-- Effect of `p.data.uniform_(-param_init, param_init)` guarded by
`param_init != 0.0` (lines 271-272 and 277-282). -/
def uniformed (opt : ModelOpt) (p : PyParam) : PyParam :=
  if opt.param_init ≠ 0 then { p with data := ParamVal.uniformRand opt.param_init } else p

/-- Effect of `xavier_uniform(p)` guarded by `param_init_glorot` and
`p.dim() > 1` (lines 273-275 and 283-289). -/
def glorots (opt : ModelOpt) (p : PyParam) : PyParam :=
  if opt.param_init_glorot ∧ 1 < p.dim then { p with data := ParamVal.xavierRand } else p

/-- Effect of lines 277-289 on one parameter: `uniform_` when
`param_init != 0.0`, then `xavier_uniform` when `param_init_glorot` and
the tensor has more than one dimension. -/
def initParam (opt : ModelOpt) (p : PyParam) : PyParam :=
  glorots opt (uniformed opt p)

/-- Body of the loop at lines 269-275 for one `doc_context` parameter:
assign the (misspelled) `require_grad` attribute to `True`, then
re-initialize the tensor like the fresh-initialization branch does. -/
def reinitContextParam (opt : ModelOpt) (p : PyParam) : PyParam :=
  glorots opt (uniformed opt (pyAssignRequireGrad p true))

/-- Lines 262-275: assign `require_grad = False` on every model and
generator parameter, then `require_grad = True` plus re-initialization
on every parameter of `model.doc_context`. -/
def freezeMainUnfreezeContext (opt : ModelOpt) (mp gp : Params) : Params × Params :=
  let mp1 := mp.map (fun q => (q.1, pyAssignRequireGrad q.2 false))
  let gp1 := gp.map (fun q => (q.1, pyAssignRequireGrad q.2 false))
  let mp2 := mp1.map
    (fun q => if isDocContextParam q.1 then (q.1, reinitContextParam opt q.2) else q)
  (mp2, gp1)

/-- Outcome of the load-or-initialize phase: the final model and
generator parameters, and whether `load_pretrained_vectors` was called
on the encoder and decoder embeddings. -/
structure PhaseResult where
  modelParams : Params
  genParams : Params
  encVecsLoaded : Bool
  decVecsLoaded : Bool
deriving DecidableEq, Repr

/-- Lines 243-296 of `make_base_model`, at the level of the named
parameters of the already-constructed model and generator.
`encHasEmbeddings`/`decHasEmbeddings` model the
`hasattr(..., 'embeddings')` tests of lines 291 and 294.  With a
checkpoint, `train_part == "context"` reconciles the state dicts
(raising `TypeError` if `context_type` is `None`, since line 249 asks
`'join' in model_opt.context_type`), loads non-strictly, loads the
generator state, and runs the freeze/unfreeze loops; without a
checkpoint, every parameter is initialized and pretrained vectors are
loaded where the embeddings attribute exists.  The generator load of
line 261 is strict; shape/key mismatches it would reject are outside
this model. -/
def loadOrInitParams (opt : ModelOpt) (train_part : String)
    (checkpoint : Option Checkpoint) (modelParams genParams : Params)
    (encHasEmbeddings decHasEmbeddings : Bool) : Except PyErr PhaseResult :=
  match checkpoint with
  | some ck =>
      let mdE : Except PyErr (StateDict ParamVal) :=
        if train_part == "context" then
          match opt.context_type with
          | none => .error (.typeError "argument of type NoneType is not iterable")
          | some ct => .ok (contextModelDict ck.model (paramsStateDict modelParams) ct)
        else .ok ck.model
      mdE.bind (fun md =>
        let mp := loadParams modelParams md
        let gp := loadParams genParams ck.generator
        if train_part == "context" then
          let fz := freezeMainUnfreezeContext opt mp gp
          .ok { modelParams := fz.1, genParams := fz.2
                encVecsLoaded := false, decVecsLoaded := false }
        else
          .ok { modelParams := mp, genParams := gp
                encVecsLoaded := false, decVecsLoaded := false })
  | none =>
      .ok { modelParams := modelParams.map (fun q => (q.1, initParam opt q.2))
            genParams := genParams.map (fun q => (q.1, initParam opt q.2))
            encVecsLoaded := encHasEmbeddings
            decVecsLoaded := decHasEmbeddings }

/-! ## Fixtures for concrete witnesses -/

/-- A small vocabulary for witnesses: `stoi` sends `<blank>` to 1,
`<s>` to 2, `</s>` to 3, unknown words to 0. -/
def vocabA : Vocab := ⟨["<unk>", "<blank>", "<s>", "</s>", "hello", "world"]⟩

/-- A second vocabulary, distinct from `vocabA`. -/
def vocabB : Vocab := ⟨["<unk>", "<blank>", "<s>", "</s>", "bonjour"]⟩

/-- A baseline option record for witnesses. -/
def optA : ModelOpt :=
  { model_type := "text", encoder_type := "rnn", decoder_type := "rnn", rnn_type := "LSTM"
    brnn := false, enc_layers := 2, dec_layers := 2, rnn_size := 4, cnn_kernel_width := 3
    dropout := 0, bridge := false, global_attention := "general", coverage_attn := false
    context_gate := none, copy_attn := false, reuse_copy_attn := false, input_feed := true
    src_word_vec_size := 5, tgt_word_vec_size := 5, share_embeddings := false
    share_decoder_embeddings := false, context_type := some "HAN_dec", context_size := 3
    param_init := 1, param_init_glorot := false, sample_rate := 16000, window_size := 2 }

/-! ## The claims -/

/-- C4: `make_context` returns `None` exactly when `opt.context_type`
is `None`; returns a `ModuleList` of exactly two `HierarchicalContext`
modules when `opt.context_type == "HAN_join"`; and a single
`HierarchicalContext` for every other non-`None` context type; in all
cases the modules are constructed with padding index
`tgt_dict.stoi[PAD_WORD]` and token indices `[PAD, UNK, BOS, EOS]`. -/
theorem claim_C4_make_context (opt : ModelOpt) (tgt_dict : Vocab) :
    (make_context opt tgt_dict = none ↔ opt.context_type = none) ∧
    (opt.context_type = some "HAN_join" →
      make_context opt tgt_dict = some (.moduleList
        [{ rnn_size := opt.rnn_size, dropout := opt.dropout, context_type := "HAN_join"
           context_size := opt.context_size, padding_idx := tgt_dict.stoi PAD_WORD
           tok_idx := [tgt_dict.stoi PAD_WORD, UNK, tgt_dict.stoi BOS_WORD,
             tgt_dict.stoi EOS_WORD] },
         { rnn_size := opt.rnn_size, dropout := opt.dropout, context_type := "HAN_join"
           context_size := opt.context_size, padding_idx := tgt_dict.stoi PAD_WORD
           tok_idx := [tgt_dict.stoi PAD_WORD, UNK, tgt_dict.stoi BOS_WORD,
             tgt_dict.stoi EOS_WORD] }])) ∧
    (∀ ct, opt.context_type = some ct → ct ≠ "HAN_join" →
      make_context opt tgt_dict = some (.single
        { rnn_size := opt.rnn_size, dropout := opt.dropout, context_type := ct
          context_size := opt.context_size, padding_idx := tgt_dict.stoi PAD_WORD
          tok_idx := [tgt_dict.stoi PAD_WORD, UNK, tgt_dict.stoi BOS_WORD,
            tgt_dict.stoi EOS_WORD] })) := by
  refine ⟨?_, ?_, ?_⟩
  · cases hc : opt.context_type with
    | none => simp [make_context, hc]
    | some ct =>
        simp only [make_context, hc]
        split <;> simp
  · intro h
    simp [make_context, h]
  · intro ct h hne
    have hb : (ct == "HAN_join") = false := by
      rw [beq_eq_false_iff_ne]; exact hne
    simp [make_context, h, hb]

/-- Witness for C4 at a concrete option record and vocabulary: the
`HAN_join` case produces the paired modules with padding index 1 and
token indices `[1, 0, 2, 3]`, the `HAN_dec` case a single module, and
a `None` context type produces no module. -/
theorem claim_C4_make_context_witness :
    make_context { optA with context_type := some "HAN_join" } vocabA =
      some (.moduleList
        [{ rnn_size := 4, dropout := 0, context_type := "HAN_join", context_size := 3
           padding_idx := 1, tok_idx := [1, 0, 2, 3] },
         { rnn_size := 4, dropout := 0, context_type := "HAN_join", context_size := 3
           padding_idx := 1, tok_idx := [1, 0, 2, 3] }]) ∧
    make_context optA vocabA =
      some (.single
        { rnn_size := 4, dropout := 0, context_type := "HAN_dec", context_size := 3
          padding_idx := 1, tok_idx := [1, 0, 2, 3] }) ∧
    make_context { optA with context_type := none } vocabA = none := by
  refine ⟨?_, ?_, ?_⟩
  · rw [(claim_C4_make_context { optA with context_type := some "HAN_join" } vocabA).2.1 rfl]
    decide
  · rw [(claim_C4_make_context optA vocabA).2.2 "HAN_dec" rfl (by decide)]
    decide
  · exact (claim_C4_make_context { optA with context_type := none } vocabA).1.mpr rfl

/-- C9: `make_encoder` dispatches on `opt.encoder_type`
(`"transformer"`, `"cnn"`, `"mean"`, anything else an `RNNEncoder`),
and `make_decoder` dispatches on `opt.decoder_type` with
`opt.input_feed` selecting `InputFeedRNNDecoder` over `StdRNNDecoder`
when the type is neither `"transformer"` nor `"cnn"`. -/
theorem claim_C9_encoder_decoder_dispatch (opt : ModelOpt) (e : Embeddings) :
    (opt.encoder_type = "transformer" →
      make_encoder opt e = .TransformerEncoder opt.enc_layers opt.rnn_size opt.dropout e) ∧
    (opt.encoder_type = "cnn" →
      make_encoder opt e =
        .CNNEncoder opt.enc_layers opt.rnn_size opt.cnn_kernel_width opt.dropout e) ∧
    (opt.encoder_type = "mean" → make_encoder opt e = .MeanEncoder opt.enc_layers e) ∧
    (opt.encoder_type ∉ (["transformer", "cnn", "mean"] : List String) →
      make_encoder opt e = .RNNEncoder opt.rnn_type opt.brnn opt.enc_layers opt.rnn_size
        opt.dropout e opt.bridge) ∧
    (opt.decoder_type = "transformer" →
      make_decoder opt e = .TransformerDecoder opt.dec_layers opt.rnn_size
        opt.global_attention opt.copy_attn opt.dropout e) ∧
    (opt.decoder_type = "cnn" →
      make_decoder opt e = .CNNDecoder opt.dec_layers opt.rnn_size opt.global_attention
        opt.copy_attn opt.cnn_kernel_width opt.dropout e) ∧
    (opt.decoder_type ∉ (["transformer", "cnn"] : List String) → opt.input_feed = true →
      make_decoder opt e = .InputFeedRNNDecoder opt.rnn_type opt.brnn opt.dec_layers
        opt.rnn_size opt.global_attention opt.coverage_attn opt.context_gate opt.copy_attn
        opt.dropout e opt.reuse_copy_attn) ∧
    (opt.decoder_type ∉ (["transformer", "cnn"] : List String) → opt.input_feed = false →
      make_decoder opt e = .StdRNNDecoder opt.rnn_type opt.brnn opt.dec_layers
        opt.rnn_size opt.global_attention opt.coverage_attn opt.context_gate opt.copy_attn
        opt.dropout e opt.reuse_copy_attn) := by
  have hne : ∀ (s t : String), s ≠ t → (s == t) = false := by
    intro s t h
    rw [beq_eq_false_iff_ne]; exact h
  refine ⟨?_, ?_, ?_, ?_, ?_, ?_, ?_, ?_⟩
  · intro h; simp [make_encoder, h]
  · intro h
    simp [make_encoder, h, hne "cnn" "transformer" (by decide)]
  · intro h
    simp [make_encoder, h, hne "mean" "transformer" (by decide), hne "mean" "cnn" (by decide)]
  · intro h
    simp only [List.mem_cons, List.mem_singleton, not_or] at h
    simp [make_encoder, hne _ _ h.1, hne _ _ h.2.1, hne _ _ h.2.2.1]
  · intro h; simp [make_decoder, h]
  · intro h
    simp [make_decoder, h, hne "cnn" "transformer" (by decide)]
  · intro h hf
    simp only [List.mem_cons, List.mem_singleton, not_or] at h
    simp [make_decoder, hne _ _ h.1, hne _ _ h.2.1, hf]
  · intro h hf
    simp only [List.mem_cons, List.mem_singleton, not_or] at h
    simp [make_decoder, hne _ _ h.1, hne _ _ h.2.1, hf]

/-- Witness for C9: concrete dispatches of `make_encoder` and
`make_decoder` at the fixture options. -/
theorem claim_C9_encoder_decoder_dispatch_witness :
    make_encoder { optA with encoder_type := "transformer" }
        (make_embeddings optA vocabA true 0) =
      .TransformerEncoder 2 4 0 (make_embeddings optA vocabA true 0) ∧
    make_encoder optA (make_embeddings optA vocabA true 0) =
      .RNNEncoder "LSTM" false 2 4 0 (make_embeddings optA vocabA true 0) false ∧
    make_decoder optA (make_embeddings optA vocabA false 1) =
      .InputFeedRNNDecoder "LSTM" false 2 4 "general" false none false 0
        (make_embeddings optA vocabA false 1) false := by
  refine ⟨?_, ?_, ?_⟩
  · rw [(claim_C9_encoder_decoder_dispatch { optA with encoder_type := "transformer" }
      (make_embeddings optA vocabA true 0)).1 rfl]
    rfl
  · rw [(claim_C9_encoder_decoder_dispatch optA
      (make_embeddings optA vocabA true 0)).2.2.2.1 (by decide)]
    rfl
  · rw [(claim_C9_encoder_decoder_dispatch optA
      (make_embeddings optA vocabA false 1)).2.2.2.2.2.2.1 (by decide) rfl]
    rfl

theorem make_decoder_embeddings (opt : ModelOpt) (e : Embeddings) :
    (make_decoder opt e).embeddings = e := by
  unfold make_decoder
  split_ifs <;> rfl

/-- Structural facts holding for every successful run of
`make_base_model`: the generator comes from the generator-construction
block applied to the final decoder and target vocabulary; the decoder
embeds the final target embeddings; and the target word-lookup weight
is either the source one (shared) or the fresh target one. -/
theorem make_base_model_ok {opt : ModelOpt} {flds : Fields} {m : BaseModel}
    (h : make_base_model opt flds = .ok m) :
    m.generator = makeGenerator opt m.decoder flds.tgt ∧
    m.decoder = make_decoder opt m.tgt_embeddings ∧
    (m.tgt_embeddings.wordLutWeight = srcWeightRef ∨
     m.tgt_embeddings.wordLutWeight = tgtWeightRef) := by
  by_cases ht : opt.model_type = "text"
  · by_cases hs : opt.share_embeddings = true
    · by_cases hv : flds.src = flds.tgt
      · simp [make_base_model, ht, hs, hv, Except.bind] at h
        subst h
        exact ⟨rfl, rfl, Or.inl rfl⟩
      · simp [make_base_model, ht, hs, hv, Except.bind] at h
    · have hs' : opt.share_embeddings = false := by
        cases hb : opt.share_embeddings with
        | true => exact absurd hb hs
        | false => rfl
      simp [make_base_model, ht, hs', Except.bind] at h
      subst h
      exact ⟨rfl, rfl, Or.inr rfl⟩
  · by_cases hi : opt.model_type = "img"
    · by_cases hs : opt.share_embeddings = true
      · simp [make_base_model, hi, hs, Except.bind] at h
      · have hs' : opt.share_embeddings = false := by
          cases hb : opt.share_embeddings with
          | true => exact absurd hb hs
          | false => rfl
        simp [make_base_model, hi, hs', Except.bind] at h
        subst h
        exact ⟨rfl, rfl, Or.inr rfl⟩
    · by_cases ha : opt.model_type = "audio"
      · by_cases hs : opt.share_embeddings = true
        · simp [make_base_model, ha, hs, Except.bind] at h
        · have hs' : opt.share_embeddings = false := by
            cases hb : opt.share_embeddings with
            | true => exact absurd hb hs
            | false => rfl
          simp [make_base_model, ha, hs', Except.bind] at h
          subst h
          exact ⟨rfl, rfl, Or.inr rfl⟩
      · have h1 : (opt.model_type == "text") = false := by
          rw [beq_eq_false_iff_ne]; exact ht
        have h2 : (opt.model_type == "img") = false := by
          rw [beq_eq_false_iff_ne]; exact hi
        have h3 : (opt.model_type == "audio") = false := by
          rw [beq_eq_false_iff_ne]; exact ha
        simp [make_base_model, h1, h2, h3] at h

/-- C3: with `share_embeddings` set and a text model,
`make_base_model` raises the `AssertionError` of lines 210-212 exactly
when the source and target vocabularies differ; when they are equal,
the target embeddings word-lookup weight becomes the identical object
as the source embeddings word-lookup weight, and the decoder (built
afterwards) carries that shared weight. -/
theorem claim_C3_share_embeddings (opt : ModelOpt) (flds : Fields)
    (hs : opt.share_embeddings = true) (ht : opt.model_type = "text") :
    (make_base_model opt flds = .error (.assertionError shareVocabMsg) ↔
      flds.src ≠ flds.tgt) ∧
    (flds.src = flds.tgt →
      (∃ m, make_base_model opt flds = .ok m) ∧
      ∀ m, make_base_model opt flds = .ok m →
        m.tgt_embeddings.wordLutWeight =
          (make_embeddings opt flds.src true srcWeightRef).wordLutWeight ∧
        m.decoder.embeddings.wordLutWeight =
          (make_embeddings opt flds.src true srcWeightRef).wordLutWeight) := by
  by_cases hv : flds.src = flds.tgt
  · refine ⟨by simp [make_base_model, ht, hs, hv, Except.bind], fun _ => ⟨?_, ?_⟩⟩
    · simp [make_base_model, ht, hs, hv, Except.bind]
    · intro m hm
      simp [make_base_model, ht, hs, hv, Except.bind] at hm
      subst hm
      constructor
      · simp [make_embeddings]
      · rw [make_decoder_embeddings]
        simp [make_embeddings]
  · refine ⟨by simp [make_base_model, ht, hs, hv, Except.bind], fun hv' => absurd hv' hv⟩

/-- Witness for C3: with shared embeddings over distinct vocabularies
the assertion fires; over equal vocabularies the model is built and its
target word-lookup weight is the source weight reference. -/
theorem claim_C3_share_embeddings_witness :
    make_base_model { optA with share_embeddings := true } ⟨vocabA, vocabB⟩ =
      .error (.assertionError shareVocabMsg) ∧
    ∃ m, make_base_model { optA with share_embeddings := true } ⟨vocabA, vocabA⟩ = .ok m ∧
      m.tgt_embeddings.wordLutWeight = srcWeightRef := by
  constructor
  · exact (claim_C3_share_embeddings { optA with share_embeddings := true }
      ⟨vocabA, vocabB⟩ rfl rfl).1.mpr (by decide)
  · obtain ⟨⟨m, hm⟩, hall⟩ := (claim_C3_share_embeddings
      { optA with share_embeddings := true } ⟨vocabA, vocabA⟩ rfl rfl).2 rfl
    exact ⟨m, hm, (hall m hm).1⟩

/-- C10: with `share_embeddings` set and an `"img"` or `"audio"` model
type, `make_base_model` cannot build a model: `src_dict` was only
assigned in the `"text"` branch, so the vocabulary comparison at line
210 raises an unbound-local-variable error. -/
theorem claim_C10_share_embeddings_non_text (opt : ModelOpt) (flds : Fields)
    (h1 : opt.model_type = "img" ∨ opt.model_type = "audio")
    (h2 : opt.share_embeddings = true) :
    make_base_model opt flds = .error (.unboundLocalError "src_dict") := by
  cases h1 with
  | inl h => simp [make_base_model, h, h2, Except.bind]
  | inr h => simp [make_base_model, h, h2, Except.bind]

/-- Witness for C10 at a concrete image-model configuration. -/
theorem claim_C10_share_embeddings_non_text_witness :
    make_base_model { optA with model_type := "img", share_embeddings := true }
      ⟨vocabA, vocabA⟩ = .error (.unboundLocalError "src_dict") :=
  claim_C10_share_embeddings_non_text
    { optA with model_type := "img", share_embeddings := true }
    ⟨vocabA, vocabA⟩ (Or.inl rfl) rfl

/-- C6: in every successful `make_base_model` run the generator linear
weight is the identical object as the decoder embeddings word-lookup
weight exactly when `share_decoder_embeddings` is set and `copy_attn`
is not; with `copy_attn` the generator is a `CopyGenerator` over the
target vocabulary; otherwise it is
`Linear(rnn_size, len(tgt_vocab))` followed by `LogSoftmax`. -/
theorem claim_C6_generator_sharing (opt : ModelOpt) (flds : Fields) (m : BaseModel)
    (h : make_base_model opt flds = .ok m) :
    (opt.copy_attn = false → opt.share_decoder_embeddings = true →
      m.generator = .Sequential
        { inFeatures := opt.rnn_size, outFeatures := flds.tgt.itos.length
          weight := m.decoder.embeddings.wordLutWeight }) ∧
    (opt.copy_attn = false → opt.share_decoder_embeddings = false →
      m.generator = .Sequential
        { inFeatures := opt.rnn_size, outFeatures := flds.tgt.itos.length
          weight := genWeightRef } ∧
      m.decoder.embeddings.wordLutWeight ≠ genWeightRef) ∧
    (opt.copy_attn = true → m.generator = .CopyGenerator opt.rnn_size flds.tgt) := by
  obtain ⟨hg, hd, hlut⟩ := make_base_model_ok h
  have hde : m.decoder.embeddings = m.tgt_embeddings := by
    rw [hd, make_decoder_embeddings]
  refine ⟨?_, ?_, ?_⟩
  · intro hc hsd
    rw [hg, hde]
    simp [makeGenerator, hc, hsd, hde]
  · intro hc hsd
    constructor
    · rw [hg]
      simp [makeGenerator, hc, hsd]
    · rw [hde]
      cases hlut with
      | inl hl => rw [hl]; decide
      | inr hl => rw [hl]; decide
  · intro hc
    rw [hg]
    simp [makeGenerator, hc]

/-- The model `make_base_model` builds from `optA` with
`share_decoder_embeddings` over `⟨vocabA, vocabA⟩`: the generator
weight is reference 1, the decoder word-lookup weight. -/
def mShareDec : BaseModel :=
  { encoder := .RNNEncoder "LSTM" false 2 4 0 ⟨5, 1, 6, 0⟩ false
    decoder := .InputFeedRNNDecoder "LSTM" false 2 4 "general" false none false 0
      ⟨5, 1, 6, 1⟩ false
    doc_context := some (.single ⟨4, 0, "HAN_dec", 3, 1, [1, 0, 2, 3]⟩)
    context_type := some "HAN_dec"
    tgt_embeddings := ⟨5, 1, 6, 1⟩
    generator := .Sequential ⟨4, 6, 1⟩
    model_type := "text" }

/-- The model `make_base_model` builds from `optA` with `copy_attn`
over `⟨vocabA, vocabA⟩`. -/
def mCopy : BaseModel :=
  { encoder := .RNNEncoder "LSTM" false 2 4 0 ⟨5, 1, 6, 0⟩ false
    decoder := .InputFeedRNNDecoder "LSTM" false 2 4 "general" false none true 0
      ⟨5, 1, 6, 1⟩ false
    doc_context := some (.single ⟨4, 0, "HAN_dec", 3, 1, [1, 0, 2, 3]⟩)
    context_type := some "HAN_dec"
    tgt_embeddings := ⟨5, 1, 6, 1⟩
    generator := .CopyGenerator 4 vocabA
    model_type := "text" }

/-- Witness for C6: with `share_decoder_embeddings` the concrete model
generator carries the decoder word-lookup weight; with `copy_attn` it
is a `CopyGenerator`. -/
theorem claim_C6_generator_sharing_witness :
    make_base_model { optA with share_decoder_embeddings := true } ⟨vocabA, vocabA⟩ =
      .ok mShareDec ∧
    mShareDec.generator = .Sequential
      { inFeatures := 4, outFeatures := 6
        weight := mShareDec.decoder.embeddings.wordLutWeight } ∧
    make_base_model { optA with copy_attn := true } ⟨vocabA, vocabA⟩ = .ok mCopy ∧
    mCopy.generator = .CopyGenerator 4 vocabA := by
  have h1 : make_base_model { optA with share_decoder_embeddings := true }
      ⟨vocabA, vocabA⟩ = .ok mShareDec := by rfl
  have h2 : make_base_model { optA with copy_attn := true } ⟨vocabA, vocabA⟩ =
      .ok mCopy := by rfl
  refine ⟨h1, ?_, h2, ?_⟩
  · rw [(claim_C6_generator_sharing _ _ mShareDec h1).1 rfl rfl]
    rfl
  · exact (claim_C6_generator_sharing _ _ mCopy h2).2.2 rfl

/-- C8: `make_base_model` fails with an assertion error naming the
unsupported type exactly when `model_opt.model_type` is not one of
`"text"`, `"img"`, `"audio"`; for `"text"` the encoder is built by
`make_encoder` over the source embeddings, for `"img"` it is an
`ImageEncoder`, for `"audio"` an `AudioEncoder`. -/
theorem claim_C8_model_type_dispatch (opt : ModelOpt) (flds : Fields) :
    (make_base_model opt flds =
        .error (.assertionError ("Unsupported model type " ++ opt.model_type)) ↔
      opt.model_type ∉ (["text", "img", "audio"] : List String)) ∧
    ∀ m, make_base_model opt flds = .ok m →
      (opt.model_type = "text" →
        m.encoder = make_encoder opt (make_embeddings opt flds.src true srcWeightRef)) ∧
      (opt.model_type = "img" →
        m.encoder = .ImageEncoder opt.enc_layers opt.brnn opt.rnn_size opt.dropout) ∧
      (opt.model_type = "audio" →
        m.encoder = .AudioEncoder opt.enc_layers opt.brnn opt.rnn_size opt.dropout
          opt.sample_rate opt.window_size) := by
  by_cases ht : opt.model_type = "text"
  · constructor
    · by_cases hs : opt.share_embeddings = true
      · by_cases hv : flds.src = flds.tgt
        · simp [make_base_model, ht, hs, hv, Except.bind]
        · have hred : make_base_model opt flds = .error (.assertionError shareVocabMsg) := by
            simp [make_base_model, ht, hs, hv, Except.bind]
          rw [hred, ht]
          apply iff_of_false
          · intro hcontra
            injection hcontra with h'
            injection h' with h''
            exact (by decide : shareVocabMsg ≠ "Unsupported model type " ++ "text") h''
          · decide
      · have hs' : opt.share_embeddings = false := by
          cases hb : opt.share_embeddings with
          | true => exact absurd hb hs
          | false => rfl
        simp [make_base_model, ht, hs', Except.bind]
    · intro m hm
      refine ⟨fun _ => ?_, fun h' => absurd (ht.symm.trans h') (by decide),
        fun h' => absurd (ht.symm.trans h') (by decide)⟩
      by_cases hs : opt.share_embeddings = true
      · by_cases hv : flds.src = flds.tgt
        · simp [make_base_model, ht, hs, hv, Except.bind] at hm
          subst hm
          rw [hv]
        · simp [make_base_model, ht, hs, hv, Except.bind] at hm
      · have hs' : opt.share_embeddings = false := by
          cases hb : opt.share_embeddings with
          | true => exact absurd hb hs
          | false => rfl
        simp [make_base_model, ht, hs', Except.bind] at hm
        subst hm
        rfl
  · by_cases hi : opt.model_type = "img"
    · constructor
      · by_cases hs : opt.share_embeddings = true
        · simp [make_base_model, hi, hs, Except.bind]
        · have hs' : opt.share_embeddings = false := by
            cases hb : opt.share_embeddings with
            | true => exact absurd hb hs
            | false => rfl
          simp [make_base_model, hi, hs', Except.bind]
      · intro m hm
        refine ⟨fun h' => absurd (hi.symm.trans h') (by decide), fun _ => ?_,
          fun h' => absurd (hi.symm.trans h') (by decide)⟩
        by_cases hs : opt.share_embeddings = true
        · simp [make_base_model, hi, hs, Except.bind] at hm
        · have hs' : opt.share_embeddings = false := by
            cases hb : opt.share_embeddings with
            | true => exact absurd hb hs
            | false => rfl
          simp [make_base_model, hi, hs', Except.bind] at hm
          subst hm
          rfl
    · by_cases ha : opt.model_type = "audio"
      · constructor
        · by_cases hs : opt.share_embeddings = true
          · simp [make_base_model, ha, hs, Except.bind]
          · have hs' : opt.share_embeddings = false := by
              cases hb : opt.share_embeddings with
              | true => exact absurd hb hs
              | false => rfl
            simp [make_base_model, ha, hs', Except.bind]
        · intro m hm
          refine ⟨fun h' => absurd (ha.symm.trans h') (by decide),
            fun h' => absurd (ha.symm.trans h') (by decide), fun _ => ?_⟩
          by_cases hs : opt.share_embeddings = true
          · simp [make_base_model, ha, hs, Except.bind] at hm
          · have hs' : opt.share_embeddings = false := by
              cases hb : opt.share_embeddings with
              | true => exact absurd hb hs
              | false => rfl
            simp [make_base_model, ha, hs', Except.bind] at hm
            subst hm
            rfl
      · have h1 : (opt.model_type == "text") = false := by
          rw [beq_eq_false_iff_ne]; exact ht
        have h2 : (opt.model_type == "img") = false := by
          rw [beq_eq_false_iff_ne]; exact hi
        have h3 : (opt.model_type == "audio") = false := by
          rw [beq_eq_false_iff_ne]; exact ha
        constructor
        · simp [make_base_model, h1, h2, h3, ht, hi, ha]
        · intro m hm
          simp [make_base_model, h1, h2, h3] at hm

/-- The model `make_base_model` builds from `optA` over
`⟨vocabA, vocabA⟩`: an `RNNEncoder` over the source embeddings. -/
def mPlain : BaseModel :=
  { encoder := .RNNEncoder "LSTM" false 2 4 0 ⟨5, 1, 6, 0⟩ false
    decoder := .InputFeedRNNDecoder "LSTM" false 2 4 "general" false none false 0
      ⟨5, 1, 6, 1⟩ false
    doc_context := some (.single ⟨4, 0, "HAN_dec", 3, 1, [1, 0, 2, 3]⟩)
    context_type := some "HAN_dec"
    tgt_embeddings := ⟨5, 1, 6, 1⟩
    generator := .Sequential ⟨4, 6, 2⟩
    model_type := "text" }

/-- Witness for C8: the `"video"` model type is rejected with the named
assertion message, and the concrete text model uses `make_encoder`. -/
theorem claim_C8_model_type_dispatch_witness :
    make_base_model { optA with model_type := "video" } ⟨vocabA, vocabA⟩ =
      .error (.assertionError "Unsupported model type video") ∧
    make_base_model optA ⟨vocabA, vocabA⟩ = .ok mPlain ∧
    mPlain.encoder = make_encoder optA (make_embeddings optA vocabA true srcWeightRef) := by
  have h2 : make_base_model optA ⟨vocabA, vocabA⟩ = .ok mPlain := by rfl
  refine ⟨?_, h2, ((claim_C8_model_type_dispatch optA ⟨vocabA, vocabA⟩).2 mPlain h2).1 rfl⟩
  have h1 := (claim_C8_model_type_dispatch { optA with model_type := "video" }
    ⟨vocabA, vocabA⟩).1.mpr (by decide)
  rw [h1]
  rfl

theorem sdContainsKey_filter_eq_false {V : Type} (d : StateDict V)
    (f : String × V → Bool) (k : String) (h : ∀ v, f (k, v) = false) :
    sdContainsKey (d.filter f) k = false := by
  induction d with
  | nil => rfl
  | cons p t ih =>
      rw [List.filter_cons]
      by_cases hf : f p = true
      · rw [if_pos hf]
        have hb : (p.1 == k) = false := by
          rw [beq_eq_false_iff_ne]
          intro he
          have hpp : p = (k, p.2) := by rw [← he]
          rw [hpp, h p.2] at hf
          exact Bool.false_ne_true hf
        simp only [sdContainsKey, List.any_cons, hb, Bool.false_or]
        exact ih
      · rw [if_neg hf]
        exact ih

theorem sdLookup_isSome_of_containsKey {V : Type} {d : StateDict V} {k : String}
    (h : sdContainsKey d k = true) : ∃ v, sdLookup d k = some v := by
  induction d with
  | nil => simp [sdContainsKey] at h
  | cons p t ih =>
      simp only [sdContainsKey, List.any_cons, Bool.or_eq_true] at h
      rw [sdLookup_cons]
      by_cases hb : (p.1 == k)
      · exact ⟨p.2, by simp [hb]⟩
      · have hb' : (p.1 == k) = false := by
          cases hx : (p.1 == k) with
          | true => exact absurd hx hb
          | false => rfl
        rcases h with h | h
        · exact absurd h hb
        · simpa [hb'] using ih h

/-- C1, the loading mechanism at lines 247-260 traced on a failing
input: for `train_part = "context"` with a join context type, the
checkpoint of a single-context model stores its context under
`doc_context.*`, while the join model state stores
`doc_context.0.*` and `doc_context.1.*`.  The membership test of line
252 runs before the remapping of line 254, so the `doc_context`
checkpoint entry is dropped, the remapping never applies to a
surviving key, and the state dictionary loaded into the model keeps
the fresh value for `doc_context.0.*` instead of the pretrained one
(which the remapped key would have matched). -/
theorem claim_C1_join_remap_never_applies :
    pretrainedDictJoin
        [("doc_context.h", ParamVal.stored 100), ("encoder.w", ParamVal.stored 101)]
        [("doc_context.0.h", ParamVal.stored 1), ("doc_context.1.h", ParamVal.stored 2),
         ("encoder.w", ParamVal.stored 3)] =
      [("encoder.w", ParamVal.stored 101)] ∧
    remapDocContext "doc_context.h" = "doc_context.0.h" ∧
    sdContainsKey
        [("doc_context.0.h", ParamVal.stored 1), ("doc_context.1.h", ParamVal.stored 2),
         ("encoder.w", ParamVal.stored 3)] "doc_context.0.h" = true ∧
    sdLookup
        (contextModelDict
          [("doc_context.h", ParamVal.stored 100), ("encoder.w", ParamVal.stored 101)]
          [("doc_context.0.h", ParamVal.stored 1), ("doc_context.1.h", ParamVal.stored 2),
           ("encoder.w", ParamVal.stored 3)] "HAN_join") "doc_context.0.h" =
      some (ParamVal.stored 1) ∧
    sdLookup
        (contextModelDict
          [("doc_context.h", ParamVal.stored 100), ("encoder.w", ParamVal.stored 101)]
          [("doc_context.0.h", ParamVal.stored 1), ("doc_context.1.h", ParamVal.stored 2),
           ("encoder.w", ParamVal.stored 3)] "HAN_join") "encoder.w" =
      some (ParamVal.stored 101) := by decide

/-- C2, the freeze/unfreeze block at lines 262-275 traced on a failing
input: the loop assigns `param.require_grad` (a misspelling of
`requires_grad`), which creates a stray attribute and freezes nothing,
so after the block every parameter of the model and of the generator
still has `requires_grad = True`; only the misspelled attribute
records the intended values. -/
theorem claim_C2_freeze_wrong_attribute :
    (loadOrInitParams
        { optA with param_init := 0 } "context"
        (some ⟨[("encoder.w", ParamVal.stored 10)], [("0.weight", ParamVal.stored 11)]⟩)
        [("encoder.w", { data := ParamVal.stored 0, dim := 2 }),
         ("doc_context.h", { data := ParamVal.stored 1, dim := 2 })]
        [("0.weight", { data := ParamVal.stored 2, dim := 2 })]
        false false).map
      (fun r =>
        (r.modelParams.map (fun q => (q.1, q.2.requires_grad, q.2.require_grad)),
         r.genParams.map (fun q => (q.1, q.2.requires_grad, q.2.require_grad)))) =
    .ok
      ([("encoder.w", true, some false), ("doc_context.h", true, some true)],
       [("0.weight", true, some false)]) := by rfl

/-- C5: with a non-`None`, non-join context type and
`train_part = "context"`, the reconciled dictionary that line 260 loads
leaves every `doc_context` parameter at the value it had in the model
state (fresh construction), while every key present in both the
checkpoint and the model state that does not mention `doc_context`
takes the checkpoint value. -/
theorem claim_C5_nojoin_context_loading (V : Type) (ckpt modelState : StateDict V)
    (ct : String) (hct : strContains ct "join" = false)
    (hnodupC : (ckpt.map Prod.fst).Nodup) :
    (∀ k, strContains k "doc_context" = true →
      sdLookup (sdLoadNonStrict modelState (contextModelDict ckpt modelState ct)) k =
        sdLookup modelState k) ∧
    (∀ k, sdContainsKey modelState k = true → sdContainsKey ckpt k = true →
      strContains k "doc_context" = false →
      sdLookup (sdLoadNonStrict modelState (contextModelDict ckpt modelState ct)) k =
        sdLookup ckpt k) := by
  have hmd : contextModelDict ckpt modelState ct =
      sdUpdate modelState (pretrainedDictNoJoin ckpt modelState) := by
    rw [contextModelDict, if_neg (by simp [hct])]
  constructor
  · intro k hk
    rw [sdLookup_sdLoadNonStrict, hmd]
    have hnk : sdContainsKey (pretrainedDictNoJoin ckpt modelState) k = false := by
      apply sdContainsKey_filter_eq_false
      intro v
      simp [hk]
    rw [sdLookup_sdUpdate_not_mem _ _ _ hnk]
    cases hml : sdLookup modelState k <;> simp
  · intro k hmk hck hkdc
    obtain ⟨v, hv⟩ := sdLookup_isSome_of_containsKey hck
    obtain ⟨w, hw⟩ := sdLookup_isSome_of_containsKey hmk
    have hnodupP : ((pretrainedDictNoJoin ckpt modelState).map Prod.fst).Nodup := by
      apply List.Nodup.sublist _ hnodupC
      exact (List.filter_sublist ckpt).map Prod.fst
    have hpd : sdLookup (pretrainedDictNoJoin ckpt modelState) k = some v := by
      rw [pretrainedDictNoJoin, sdLookup_filter_nodup _ _ hnodupC, hv]
      simp [hmk, hkdc]
    rw [sdLookup_sdLoadNonStrict, hmd, sdLookup_sdUpdate_nodup _ _ _ hnodupP, hpd, hw, hv]
    simp

/-- Witness for C5 at concrete dictionaries with the `HAN_dec` context
type: the `doc_context` entry keeps its fresh value 2 and the shared
`encoder.w` entry takes the checkpoint value 10. -/
theorem claim_C5_nojoin_context_loading_witness :
    strContains "HAN_dec" "join" = false ∧
    sdLookup
        (sdLoadNonStrict [("encoder.w", 1), ("doc_context.h", 2), ("decoder.w", 3)]
          (contextModelDict [("encoder.w", 10), ("doc_context.h", 11)]
            [("encoder.w", 1), ("doc_context.h", 2), ("decoder.w", 3)] "HAN_dec"))
        "doc_context.h" = some 2 ∧
    sdLookup
        (sdLoadNonStrict [("encoder.w", 1), ("doc_context.h", 2), ("decoder.w", 3)]
          (contextModelDict [("encoder.w", 10), ("doc_context.h", 11)]
            [("encoder.w", 1), ("doc_context.h", 2), ("decoder.w", 3)] "HAN_dec"))
        "encoder.w" = some 10 := by
  refine ⟨by decide, ?_, ?_⟩
  · exact (claim_C5_nojoin_context_loading Nat
      [("encoder.w", 10), ("doc_context.h", 11)]
      [("encoder.w", 1), ("doc_context.h", 2), ("decoder.w", 3)] "HAN_dec"
      (by decide) (by decide)).1 "doc_context.h" (by decide)
  · exact (claim_C5_nojoin_context_loading Nat
      [("encoder.w", 10), ("doc_context.h", 11)]
      [("encoder.w", 1), ("doc_context.h", 2), ("decoder.w", 3)] "HAN_dec"
      (by decide) (by decide)).2 "encoder.w" (by decide) (by decide) (by decide)

/-! ## Lemmas for the initialization-policy claim -/

/-- Tensor contents that are concrete stored values (from construction
or from a checkpoint), as opposed to freshly randomized ones. -/
def ParamVal.isStored : ParamVal → Bool
  | .stored _ => true
  | _ => false

theorem uniformed_dim (opt : ModelOpt) (p : PyParam) : (uniformed opt p).dim = p.dim := by
  unfold uniformed
  split_ifs <;> rfl

theorem initParam_dim (opt : ModelOpt) (p : PyParam) : (initParam opt p).dim = p.dim := by
  unfold initParam glorots
  split_ifs <;> simp [uniformed_dim]

theorem initParam_data_of_ne (opt : ModelOpt) (p : PyParam) (h : opt.param_init ≠ 0) :
    (initParam opt p).data =
      if opt.param_init_glorot = true ∧ 1 < p.dim then ParamVal.xavierRand
      else ParamVal.uniformRand opt.param_init := by
  unfold initParam glorots
  rw [uniformed_dim]
  by_cases hg : opt.param_init_glorot = true ∧ 1 < p.dim
  · rw [if_pos hg, if_pos hg]
  · rw [if_neg hg, if_neg hg]
    unfold uniformed
    rw [if_pos h]

theorem initParam_data_glorot (opt : ModelOpt) (p : PyParam)
    (hg : opt.param_init_glorot = true) (hd : 1 < p.dim) :
    (initParam opt p).data = ParamVal.xavierRand := by
  unfold initParam glorots
  rw [uniformed_dim, if_pos ⟨hg, hd⟩]

theorem reinitContextParam_dim (opt : ModelOpt) (p : PyParam) :
    (reinitContextParam opt p).dim = p.dim := by
  unfold reinitContextParam glorots
  split_ifs <;> simp [uniformed_dim, pyAssignRequireGrad]

theorem reinitContextParam_data_of_ne (opt : ModelOpt) (p : PyParam)
    (h : opt.param_init ≠ 0) :
    (reinitContextParam opt p).data =
      if opt.param_init_glorot = true ∧ 1 < p.dim then ParamVal.xavierRand
      else ParamVal.uniformRand opt.param_init := by
  have : reinitContextParam opt p = initParam opt (pyAssignRequireGrad p true) := rfl
  rw [this, initParam_data_of_ne _ _ h]
  rfl

theorem sdLookup_mem_snd {V : Type} {d : StateDict V} {k : String} {v : V}
    (h : sdLookup d k = some v) : v ∈ d.map Prod.snd := by
  induction d with
  | nil => simp [sdLookup] at h
  | cons p t ih =>
      rw [sdLookup_cons] at h
      by_cases hb : (p.1 == k) = true
      · rw [if_pos hb] at h
        simp only [Option.some.injEq] at h
        subst h
        simp
      · rw [if_neg hb] at h
        simp only [List.map_cons, List.mem_cons]
        exact Or.inr (ih h)

theorem mem_snd_sdInsert {V : Type} {d : StateDict V} {k : String} {v w : V}
    (h : w ∈ (sdInsert d k v).map Prod.snd) : w ∈ d.map Prod.snd ∨ w = v := by
  induction d with
  | nil =>
      simp [sdInsert] at h
      exact Or.inr h
  | cons p t ih =>
      by_cases hb : (p.1 == k) = true
      · simp only [sdInsert, hb, if_pos, List.map_cons, List.mem_cons] at h
        rcases h with h | h
        · exact Or.inr h
        · exact Or.inl (by simp [h])
      · simp only [sdInsert, hb, Bool.false_eq_true, if_false, List.map_cons,
          List.mem_cons] at h
        rcases h with h | h
        · exact Or.inl (by simp [h])
        · rcases ih h with h' | h'
          · exact Or.inl (by simp only [List.map_cons, List.mem_cons]; exact Or.inr h')
          · exact Or.inr h'

theorem mem_snd_sdUpdate {V : Type} {d d2 : StateDict V} {w : V}
    (h : w ∈ (sdUpdate d d2).map Prod.snd) :
    w ∈ d.map Prod.snd ∨ w ∈ d2.map Prod.snd := by
  induction d2 generalizing d with
  | nil => exact Or.inl h
  | cons p t ih =>
      simp only [sdUpdate, List.foldl_cons] at h
      rcases ih h with h' | h'
      · rcases mem_snd_sdInsert h' with h'' | h''
        · exact Or.inl h''
        · exact Or.inr (by simp [h''])
      · exact Or.inr (by simp only [List.map_cons, List.mem_cons]; exact Or.inr h')

theorem mem_snd_pretrainedDictNoJoin {V : Type} {ck ms : StateDict V} {w : V}
    (h : w ∈ (pretrainedDictNoJoin ck ms).map Prod.snd) : w ∈ ck.map Prod.snd := by
  rw [pretrainedDictNoJoin] at h
  obtain ⟨p, hp, hw⟩ := List.mem_map.mp h
  rw [← hw]
  exact List.mem_map_of_mem _ (List.mem_of_mem_filter hp)

theorem mem_snd_pretrainedDictJoin {V : Type} {ck ms : StateDict V} {w : V}
    (h : w ∈ (pretrainedDictJoin ck ms).map Prod.snd) : w ∈ ck.map Prod.snd := by
  rw [pretrainedDictJoin, List.map_map] at h
  obtain ⟨p, hp, hw⟩ := List.mem_map.mp h
  rw [← hw]
  show Prod.snd p ∈ ck.map Prod.snd
  exact List.mem_map_of_mem _ (List.mem_of_mem_filter hp)

theorem mem_snd_contextModelDict {V : Type} {ck ms : StateDict V} {ct : String} {w : V}
    (h : w ∈ (contextModelDict ck ms ct).map Prod.snd) :
    w ∈ ms.map Prod.snd ∨ w ∈ ck.map Prod.snd := by
  rw [contextModelDict] at h
  split at h
  · rcases mem_snd_sdUpdate h with h' | h'
    · exact Or.inl h'
    · exact Or.inr (mem_snd_pretrainedDictJoin h')
  · rcases mem_snd_sdUpdate h with h' | h'
    · exact Or.inl h'
    · exact Or.inr (mem_snd_pretrainedDictNoJoin h')

theorem loadParams_mem {mp : Params} {d : StateDict ParamVal} {q : String × PyParam}
    (h : q ∈ loadParams mp d) :
    ∃ q0, q0 ∈ mp ∧
      q = (q0.1, { q0.2 with data := (sdLookup d q0.1).getD q0.2.data }) := by
  rw [loadParams] at h
  obtain ⟨q0, hq0, hw⟩ := List.mem_map.mp h
  exact ⟨q0, hq0, hw.symm⟩

/-- Loading from an all-stored dictionary keeps all-stored parameters
all-stored. -/
theorem stored_of_loadParams {mp : Params} {d : StateDict ParamVal} {q : String × PyParam}
    (hq : q ∈ loadParams mp d)
    (hmp : ∀ q0 ∈ mp, q0.2.data.isStored = true)
    (hd : ∀ p ∈ d, p.2.isStored = true) : q.2.data.isStored = true := by
  obtain ⟨q0, hq0, rfl⟩ := loadParams_mem hq
  cases hl : sdLookup d q0.1 with
  | none => simpa [hl] using hmp q0 hq0
  | some v =>
      have hv := sdLookup_mem_snd hl
      obtain ⟨p, hp, hw⟩ := List.mem_map.mp hv
      have := hd p hp
      rw [hw] at this
      simpa [hl] using this

/-- The reconciled dictionary of the context-training branch only holds
values from the model state dict or the checkpoint. -/
theorem contextModelDict_stored {ck : StateDict ParamVal} {mp : Params} {ct : String}
    (hmp : ∀ q ∈ mp, q.2.data.isStored = true)
    (hck : ∀ p ∈ ck, p.2.isStored = true) :
    ∀ p ∈ contextModelDict ck (paramsStateDict mp) ct, p.2.isStored = true := by
  intro p hp
  have hv : p.2 ∈ (contextModelDict ck (paramsStateDict mp) ct).map Prod.snd :=
    List.mem_map_of_mem _ hp
  rcases mem_snd_contextModelDict hv with h | h
  · rw [paramsStateDict, List.map_map] at h
    obtain ⟨q0, hq0, hw⟩ := List.mem_map.mp h
    rw [← hw]
    exact hmp q0 hq0
  · obtain ⟨p0, hp0, hw⟩ := List.mem_map.mp h
    rw [← hw]
    exact hck p0 hp0

/-- Membership in the frozen-and-unfrozen model parameter list, traced
back to the parameter list before the freeze block. -/
theorem freezeMainUnfreezeContext_fst_mem {opt : ModelOpt} {mp gp : Params}
    {q : String × PyParam} (h : q ∈ (freezeMainUnfreezeContext opt mp gp).1) :
    ∃ q1, q1 ∈ mp ∧ q.1 = q1.1 ∧
      ((isDocContextParam q1.1 = false ∧ q.2 = pyAssignRequireGrad q1.2 false) ∨
       (isDocContextParam q1.1 = true ∧
        q.2 = reinitContextParam opt (pyAssignRequireGrad q1.2 false))) := by
  simp only [freezeMainUnfreezeContext, List.map_map] at h
  obtain ⟨q1, hq1, hw⟩ := List.mem_map.mp h
  by_cases hd : isDocContextParam q1.1 = true
  · refine ⟨q1, hq1, ?_, Or.inr ⟨hd, ?_⟩⟩ <;>
      · simp only [Function.comp, hd, if_pos] at hw
        rw [← hw]
  · have hd' : isDocContextParam q1.1 = false := by
      cases hx : isDocContextParam q1.1 with
      | true => exact absurd hx hd
      | false => rfl
    refine ⟨q1, hq1, ?_, Or.inl ⟨hd', ?_⟩⟩ <;>
      · simp only [Function.comp, hd', Bool.false_eq_true, if_false] at hw
        rw [← hw]

/-- C7: without a checkpoint, every model and generator parameter is
uniformly initialized when `param_init != 0.0` (then Xavier-initialized
when `param_init_glorot` and the tensor has more than one dimension),
and pretrained word vectors are loaded into the encoder/decoder
embeddings exactly when those embedding attributes exist.  With a
checkpoint, no pretrained-vector loading happens and no parameter is
randomly initialized - its contents stay stored values from the model
or the checkpoint - except the `doc_context` parameters under
`train_part = "context"`, which are re-initialized by the same policy. -/
theorem claim_C7_initialization_policy (opt : ModelOpt) (tp : String) (mp gp : Params) (encE decE : Bool) :
    (∀ r, loadOrInitParams opt tp none mp gp encE decE = .ok r →
      (opt.param_init ≠ 0 → ∀ q ∈ r.modelParams ++ r.genParams,
        q.2.data = (if opt.param_init_glorot = true ∧ 1 < q.2.dim
          then ParamVal.xavierRand else ParamVal.uniformRand opt.param_init)) ∧
      (opt.param_init_glorot = true → ∀ q ∈ r.modelParams ++ r.genParams,
        1 < q.2.dim → q.2.data = ParamVal.xavierRand) ∧
      r.encVecsLoaded = encE ∧ r.decVecsLoaded = decE) ∧
    (∀ ck r, loadOrInitParams opt tp (some ck) mp gp encE decE = .ok r →
      r.encVecsLoaded = false ∧ r.decVecsLoaded = false ∧
      ((∀ q ∈ mp, q.2.data.isStored = true) → (∀ p ∈ ck.model, p.2.isStored = true) →
       (∀ q ∈ gp, q.2.data.isStored = true) →
       (∀ p ∈ ck.generator, p.2.isStored = true) →
        (∀ q ∈ r.modelParams, (tp = "context" → isDocContextParam q.1 = false) →
          q.2.data.isStored = true) ∧
        (∀ q ∈ r.genParams, q.2.data.isStored = true)) ∧
      (tp = "context" → opt.param_init ≠ 0 → ∀ q ∈ r.modelParams,
        isDocContextParam q.1 = true →
          q.2.data = (if opt.param_init_glorot = true ∧ 1 < q.2.dim
            then ParamVal.xavierRand else ParamVal.uniformRand opt.param_init))) := by
  constructor
  · intro r hr
    simp only [loadOrInitParams, Except.ok.injEq] at hr
    subst hr
    refine ⟨?_, ?_, rfl, rfl⟩
    · intro hpi q hq
      rcases List.mem_append.mp hq with hq' | hq' <;>
        · obtain ⟨q0, hq0, hw⟩ := List.mem_map.mp hq'
          rw [← hw]
          show (initParam opt q0.2).data = _
          rw [initParam_data_of_ne _ _ hpi]
          have hd : PyParam.dim (Prod.snd ((fun q => (q.1, initParam opt q.2)) q0)) =
              (initParam opt q0.2).dim := rfl
          rw [hd, initParam_dim]
    · intro hg q hq
      rcases List.mem_append.mp hq with hq' | hq' <;>
        · obtain ⟨q0, hq0, hw⟩ := List.mem_map.mp hq'
          rw [← hw]
          have hd : PyParam.dim (Prod.snd ((fun q => (q.1, initParam opt q.2)) q0)) =
              q0.2.dim := initParam_dim opt q0.2
          intro hdim
          rw [hd] at hdim
          show (initParam opt q0.2).data = _
          exact initParam_data_glorot opt q0.2 hg hdim
  · intro ck r hr
    by_cases htp : tp = "context"
    · subst htp
      cases hct : opt.context_type with
      | none => simp [loadOrInitParams, hct, Except.bind] at hr
      | some ct =>
          simp only [loadOrInitParams, hct, beq_self_eq_true, if_pos, Except.bind,
            Except.ok.injEq] at hr
          subst hr
          refine ⟨rfl, rfl, ?_, ?_⟩
          · intro hmp hckm hgp hckg
            constructor
            · intro q hq hnd
              have hnd' := hnd rfl
              have hq' : q ∈ (freezeMainUnfreezeContext opt
                  (loadParams mp (contextModelDict ck.model (paramsStateDict mp) ct))
                  (loadParams gp ck.generator)).1 := hq
              obtain ⟨q1, hq1, hname, hcases⟩ := freezeMainUnfreezeContext_fst_mem hq'
              rcases hcases with ⟨hdc, hq2⟩ | ⟨hdc, hq2⟩
              · rw [hq2]
                show (pyAssignRequireGrad q1.2 false).data.isStored = true
                have hdata : (pyAssignRequireGrad q1.2 false).data = q1.2.data := rfl
                rw [hdata]
                exact stored_of_loadParams hq1 hmp (contextModelDict_stored hmp hckm)
              · rw [hname, hdc] at hnd'
                exact absurd hnd' (by decide)
            · intro q hq
              have hq' : q ∈ (loadParams gp ck.generator).map
                  (fun q => (q.1, pyAssignRequireGrad q.2 false)) := hq
              obtain ⟨q1, hq1, hw⟩ := List.mem_map.mp hq'
              rw [← hw]
              show (pyAssignRequireGrad q1.2 false).data.isStored = true
              have hdata : (pyAssignRequireGrad q1.2 false).data = q1.2.data := rfl
              rw [hdata]
              exact stored_of_loadParams hq1 hgp hckg
          · intro _ hpi q hq hdc
            have hq' : q ∈ (freezeMainUnfreezeContext opt
                (loadParams mp (contextModelDict ck.model (paramsStateDict mp) ct))
                (loadParams gp ck.generator)).1 := hq
            obtain ⟨q1, hq1, hname, hcases⟩ := freezeMainUnfreezeContext_fst_mem hq'
            rcases hcases with ⟨hdc', hq2⟩ | ⟨hdc', hq2⟩
            · rw [hname, hdc'] at hdc
              exact absurd hdc (by decide)
            · rw [hq2, reinitContextParam_data_of_ne _ _ hpi, reinitContextParam_dim]
    · have hbt : (tp == "context") = false := by
        rw [beq_eq_false_iff_ne]; exact htp
      simp only [loadOrInitParams, hbt, Bool.false_eq_true, if_false, Except.bind,
        Except.ok.injEq] at hr
      subst hr
      refine ⟨rfl, rfl, ?_, fun htp' => absurd htp' htp⟩
      intro hmp hckm hgp hckg
      exact ⟨fun q hq _ => stored_of_loadParams hq hmp hckm,
        fun q hq => stored_of_loadParams hq hgp hckg⟩

/-- Model parameters of a one-parameter model, for the C7 witness. -/
def mp7 : Params := [("encoder.w", { data := ParamVal.stored 0, dim := 2 })]

/-- Generator parameters for the C7 witness. -/
def gp7 : Params := [("gen.w", { data := ParamVal.stored 1, dim := 1 })]

/-- Expected phase outcome for the C7 witness without a checkpoint. -/
def r7 : PhaseResult :=
  { modelParams := [("encoder.w", { data := ParamVal.uniformRand 1, dim := 2 })]
    genParams := [("gen.w", { data := ParamVal.uniformRand 1, dim := 1 })]
    encVecsLoaded := true, decVecsLoaded := false }

/-- Checkpoint for the C7 witness. -/
def ck7 : Checkpoint :=
  ⟨[("encoder.w", ParamVal.stored 20)], [("gen.w", ParamVal.stored 21)]⟩

/-- Expected phase outcome for the C7 witness with a checkpoint and
`train_part = "all"`. -/
def rck7 : PhaseResult :=
  { modelParams := [("encoder.w", { data := ParamVal.stored 20, dim := 2 })]
    genParams := [("gen.w", { data := ParamVal.stored 21, dim := 1 })]
    encVecsLoaded := false, decVecsLoaded := false }

/-- Witness for C7 at `optA` (with `param_init = 1`, no Xavier):
fresh initialization makes the parameter uniform-initialized and loads
pretrained vectors per the embedding attributes; the checkpoint run
loads stored values and loads no pretrained vectors. -/
theorem claim_C7_initialization_policy_witness :
    loadOrInitParams optA "all" none mp7 gp7 true false = .ok r7 ∧
    r7.encVecsLoaded = true ∧ r7.decVecsLoaded = false ∧
    (∃ p, ("encoder.w", p) ∈ r7.modelParams ∧
      p.data = ParamVal.uniformRand optA.param_init) ∧
    loadOrInitParams optA "all" (some ck7) mp7 gp7 true false = .ok rck7 ∧
    rck7.encVecsLoaded = false ∧
    (∃ p, ("encoder.w", p) ∈ rck7.modelParams ∧ p.data.isStored = true) := by
  have h1 : loadOrInitParams optA "all" none mp7 gp7 true false = .ok r7 := by rfl
  have h2 : loadOrInitParams optA "all" (some ck7) mp7 gp7 true false = .ok rck7 := by rfl
  have happ1 := (claim_C7_initialization_policy optA "all" mp7 gp7 true false).1 r7 h1
  have happ2 := (claim_C7_initialization_policy optA "all" mp7 gp7 true false).2 ck7 rck7 h2
  refine ⟨h1, happ1.2.2.1, happ1.2.2.2, ?_, h2, happ2.1, ?_⟩
  · refine ⟨{ data := ParamVal.uniformRand 1, dim := 2 }, by decide, ?_⟩
    have := happ1.1 (by decide)
      ("encoder.w", { data := ParamVal.uniformRand 1, dim := 2 }) (by decide)
    exact this.trans (by decide)
  · refine ⟨{ data := ParamVal.stored 20, dim := 2 }, by decide, ?_⟩
    exact (happ2.2.2.1 (by decide) (by decide) (by decide) (by decide)).1
      ("encoder.w", { data := ParamVal.stored 20, dim := 2 }) (by decide)
      (fun hc => absurd hc (by decide))

end ModelConstructor
